import Mathlib

/-!
# Verification of the jobsuche-mcp-server normalization and batch-orchestration core

Shallow embedding of `src/jobsuche-mcp-server/src/lib.rs` (a Rust MCP server that
searches the German Federal Employment Agency job API). JSON deserialization via
serde is modelled by explicit decoders over a small JSON value type; the HTTP
transport is modelled by oracle functions passed as parameters; `anyhow::Result`
is modelled by `Except String`. Wall-clock durations and pacing sleeps are
environmental and are modelled as the constant 0 / omitted.
-/

namespace Jobsuche

/-! ## JSON value model (for serde_json::Value and deserialization) -/

/-- A JSON value. Numbers are modelled as integers (all numeric fields of the
API schema are u64 counters). -/
inductive Json where
  | null
  | bool (b : Bool)
  | num (n : Int)
  | str (s : String)
  | arr (xs : List Json)
  | obj (fields : List (String × Json))

/-- Look up the first binding of a key in a JSON object's field list. -/
def jlookup : List (String × Json) → String → Option Json
  | [], _ => none
  | (k, v) :: rest, key => if k = key then some v else jlookup rest key

/-- serde: `Option<String>` field — missing or null gives `none`, a string gives
`some`, anything else is a type error. -/
def decodeOptString (fields : List (String × Json)) (key : String) :
    Except String (Option String) :=
  match jlookup fields key with
  | none => .ok none
  | some .null => .ok none
  | some (.str s) => .ok (some s)
  | some _ => .error ("invalid type for field " ++ key)

/-- serde: `#[serde(default)] String` field — missing gives `""`, a string gives
itself, anything else (including null) is a type error. -/
def decodeDefString (fields : List (String × Json)) (key : String) :
    Except String String :=
  match jlookup fields key with
  | none => .ok ""
  | some (.str s) => .ok s
  | some _ => .error ("invalid type for field " ++ key)

/-- serde: `Option<u64>` field — missing or null gives `none`, a non-negative
number gives `some`, anything else is an error. -/
def decodeOptNat (fields : List (String × Json)) (key : String) :
    Except String (Option Nat) :=
  match jlookup fields key with
  | none => .ok none
  | some .null => .ok none
  | some (.num n) => if n < 0 then .error ("invalid value for field " ++ key)
                     else .ok (some n.toNat)
  | some _ => .error ("invalid type for field " ++ key)

/-- serde: `Option<bool>` field. -/
def decodeOptBool (fields : List (String × Json)) (key : String) :
    Except String (Option Bool) :=
  match jlookup fields key with
  | none => .ok none
  | some .null => .ok none
  | some (.bool b) => .ok (some b)
  | some _ => .error ("invalid type for field " ++ key)

/-! ## External API response types (`ApiSearchResponse`, `ApiJobListing`, ...) -/

/-- `ApiArbeitsort`: nested location record of a search listing (all fields
optional, unknown fields collected and ignored via `#[serde(flatten)]`). -/
structure ApiArbeitsort where
  ort : Option String
  plz : Option String
  region : Option String
  land : Option String
deriving DecidableEq, Repr

/-- `Default::default()` for `ApiArbeitsort` (all fields `None`). -/
def emptyArbeitsort : ApiArbeitsort := ⟨none, none, none, none⟩

/-- `ApiJobListing`: one job record of a search response. `beruf`, `refnr` and
`arbeitgeber` carry `#[serde(default)]` (missing means `""`), `arbeitsort`
defaults to the empty record, the rest are `Option`s. -/
structure ApiJobListing where
  beruf : String
  titel : Option String
  refnr : String
  arbeitsort : ApiArbeitsort
  arbeitgeber : String
  aktuelle_veroeffentlichungsdatum : Option String
  externe_url : Option String
deriving DecidableEq, Repr

/-- `ApiSearchResponse`: `stellenangebote` carries
`#[serde(default = "default_vec")]` (missing means the empty list); unknown
fields are ignored via `#[serde(flatten)]`. -/
structure ApiSearchResponse where
  stellenangebote : List ApiJobListing
  max_ergebnisse : Option Nat
  page : Option Nat
  size : Option Nat
deriving DecidableEq, Repr

/-- `ApiAddress` within a detail record's workplace list. -/
structure ApiAddress where
  ort : Option String
  plz : Option String
deriving DecidableEq, Repr

/-- `ApiJobLocation` within a detail record's workplace list. -/
structure ApiJobLocation where
  adresse : Option ApiAddress
deriving DecidableEq, Repr

/-- `ApiDateRange` (`eintrittszeitraum` / `veroeffentlichungszeitraum`). -/
structure ApiDateRange where
  von : Option String
  bis : Option String
deriving DecidableEq, Repr

/-- `ApiJobDetails`: the tolerant job-detail record (every field optional). -/
structure ApiJobDetails where
  titel : Option String
  stellenbeschreibung : Option String
  arbeitgeber : Option String
  arbeitsorte : Option (List ApiJobLocation)
  arbeitszeit_vollzeit : Option Bool
  verguetung : Option String
  vertragsdauer : Option String
  stellenangebots_art : Option String
  erste_veroeffentlichungsdatum : Option String
  nur_fuer_schwerbehinderte : Option Bool
  eintrittszeitraum : Option ApiDateRange
  veroeffentlichungszeitraum : Option ApiDateRange
  ist_geringfuegige_beschaeftigung : Option Bool
  ist_arbeitnehmer_ueberlassung : Option Bool
  ist_private_arbeitsvermittlung : Option Bool
  quereinstieg_geeignet : Option Bool
  chiffrenummer : Option String
  externe_url : Option String
  allianzpartner_url : Option String
deriving DecidableEq, Repr

/-! ## serde-style decoders for the search response -/

/-- Decoder for `ApiArbeitsort` (derived `Deserialize` with flatten-ignore of
unknown fields): only the four known keys are looked up. -/
def decodeArbeitsort : Json → Except String ApiArbeitsort
  | .obj fields =>
    match decodeOptString fields "ort" with
    | .error e => .error e
    | .ok ort =>
      match decodeOptString fields "plz" with
      | .error e => .error e
      | .ok plz =>
        match decodeOptString fields "region" with
        | .error e => .error e
        | .ok region =>
          match decodeOptString fields "land" with
          | .error e => .error e
          | .ok land => .ok ⟨ort, plz, region, land⟩
  | _ => .error "invalid type: expected object for ApiArbeitsort"

/-- `#[serde(default)]` struct field: a missing `arbeitsort` key becomes the
default record, a present value must decode as an `ApiArbeitsort` object. -/
def decodeDefArbeitsort (fields : List (String × Json)) :
    Except String ApiArbeitsort :=
  match jlookup fields "arbeitsort" with
  | none => .ok emptyArbeitsort
  | some j => decodeArbeitsort j

/-- Decoder for `ApiJobListing` (derived `Deserialize`; unknown fields are
swallowed by the flattened extra map). -/
def decodeJobListing : Json → Except String ApiJobListing
  | .obj fields =>
    match decodeDefString fields "beruf" with
    | .error e => .error e
    | .ok beruf =>
      match decodeOptString fields "titel" with
      | .error e => .error e
      | .ok titel =>
        match decodeDefString fields "refnr" with
        | .error e => .error e
        | .ok refnr =>
          match decodeDefArbeitsort fields with
          | .error e => .error e
          | .ok arbeitsort =>
            match decodeDefString fields "arbeitgeber" with
            | .error e => .error e
            | .ok arbeitgeber =>
              match decodeOptString fields "aktuelleVeroeffentlichungsdatum" with
              | .error e => .error e
              | .ok datum =>
                match decodeOptString fields "externeUrl" with
                | .error e => .error e
                | .ok ext => .ok ⟨beruf, titel, refnr, arbeitsort, arbeitgeber, datum, ext⟩
  | _ => .error "invalid type: expected object for ApiJobListing"

/-- Decode a JSON array elementwise into listings (any element failure fails
the whole decode, as serde does for `Vec<ApiJobListing>`). -/
def decodeListingList : Json → Except String (List ApiJobListing)
  | .arr xs => go xs
  | _ => .error "invalid type: expected array for stellenangebote"
where
  go : List Json → Except String (List ApiJobListing)
  | [] => .ok []
  | j :: rest =>
    match decodeJobListing j with
    | .error e => .error e
    | .ok a =>
      match go rest with
      | .error e => .error e
      | .ok as => .ok (a :: as)

/-- Decoder for `ApiSearchResponse`: a missing `stellenangebote` key defaults to
the empty list (`default_vec`); unknown top-level fields are ignored. -/
def decodeSearchResponse : Json → Except String ApiSearchResponse
  | .obj fields =>
    match (match jlookup fields "stellenangebote" with
           | none => Except.ok []
           | some j => decodeListingList j : Except String (List ApiJobListing)) with
    | .error e => .error e
    | .ok st =>
      match decodeOptNat fields "maxErgebnisse" with
      | .error e => .error e
      | .ok me =>
        match decodeOptNat fields "page" with
        | .error e => .error e
        | .ok pg =>
          match decodeOptNat fields "size" with
          | .error e => .error e
          | .ok sz => .ok ⟨st, me, pg, sz⟩
  | _ => .error "invalid type: expected object for ApiSearchResponse"

/-- The field names `ApiSearchResponse`'s decoder actually consults. -/
def searchResponseKeys : List String := ["stellenangebote", "maxErgebnisse", "page", "size"]

/-- The field names `ApiJobListing`'s decoder actually consults. -/
def jobListingKeys : List String :=
  ["beruf", "titel", "refnr", "arbeitsort", "arbeitgeber",
   "aktuelleVeroeffentlichungsdatum", "externeUrl"]

/-! ## MCP parameter and result types -/

/-- `SearchJobsParams`: caller-facing search filters. -/
structure SearchJobsParams where
  job_title : Option String
  location : Option String
  radius_km : Option Nat
  employment_type : Option (List String)
  contract_type : Option (List String)
  published_since_days : Option Nat
  page_size : Option Nat
  page : Option Nat
  employer : Option String
  branch : Option String
deriving DecidableEq, Repr

/-- `SearchParams`: the transport query parameters handed to the API client. -/
structure SearchParams where
  was : Option String
  wo : Option String
  umkreis : Option Nat
  size : Option Nat
  page : Option Nat
  veroeffentlichtseit : Option Nat
  arbeitszeit : Option (List String)
deriving DecidableEq, Repr

/-- `JobSummary`: normalized search listing. -/
structure JobSummary where
  reference_number : String
  title : String
  employer : String
  location : String
  published_date : Option String
  external_url : Option String
  application_url : String
deriving DecidableEq, Repr

/-- `SearchJobsResult` (`search_duration_ms` is wall-clock time, modelled 0). -/
structure SearchJobsResult where
  total_results : Option Nat
  current_page : Option Nat
  page_size : Option Nat
  jobs_count : Nat
  jobs : List JobSummary
  search_duration_ms : Nat
deriving DecidableEq, Repr

/-- `GetJobDetailsParams`. -/
structure GetJobDetailsParams where
  reference_number : String
deriving DecidableEq, Repr

/-- `GetJobDetailsResult`: normalized job detail. -/
structure GetJobDetailsResult where
  reference_number : String
  title : Option String
  description : Option String
  employer : Option String
  location : Option String
  employment_type : Option String
  salary : Option String
  contract_duration : Option String
  job_type : Option String
  first_published : Option String
  only_for_disabled : Option Bool
  fulltime : Option Bool
  entry_period : Option String
  is_minor_employment : Option Bool
  is_temp_agency : Option Bool
  career_changer_suitable : Option Bool
  external_url : Option String
  partner_url : Option String
  application_url : String
deriving DecidableEq, Repr

/-- `BatchSearchItem`: one named search spec inside a batch call. -/
structure BatchSearchItem where
  name : String
  job_title : Option String
  location : Option String
  radius_km : Option Nat
  employment_type : Option (List String)
  contract_type : Option (List String)
  published_since_days : Option Nat
  employer : Option String
  branch : Option String
deriving DecidableEq, Repr

/-- `BatchSearchJobsParams`. -/
structure BatchSearchJobsParams where
  searches : List BatchSearchItem
  max_details_per_search : Option Nat
deriving DecidableEq, Repr

/-- `BatchSearchItemResult`: one per-search outcome of a batch call. -/
structure BatchSearchItemResult where
  search_name : String
  total_results : Option Nat
  jobs_count : Nat
  jobs : List GetJobDetailsResult
  error : Option String
deriving DecidableEq, Repr

/-- `BatchSearchJobsResult` (`total_duration_ms` is wall-clock, modelled 0). -/
structure BatchSearchJobsResult where
  searches_count : Nat
  results : List BatchSearchItemResult
  total_duration_ms : Nat
deriving DecidableEq, Repr

/-- `JobsucheServerStatus`. -/
structure JobsucheServerStatus where
  server_name : String
  version : String
  uptime_seconds : Nat
  api_url : String
  api_connection_status : String
  tools_count : Nat
deriving DecidableEq, Repr

/-- Modelled from the spec: the configuration module (`config.rs`, declared as
`pub mod config` but not present under `src/`) supplies the API base URL, an
optional API key, a default page size and a maximum page size (spec section 6,
"Configuration inputs"). -/
structure JobsucheConfig where
  api_url : String
  api_key : Option String
  default_page_size : Nat
  max_page_size : Nat
deriving DecidableEq, Repr

/-! ## Normalization and operations

The HTTP transport is modelled by oracle functions: a search client
`SearchParams → Except String ApiSearchResponse` and a detail client
`String → Except String ApiJobDetails` stand for the `JobsucheClient` methods
over the network. `Except String` models `anyhow::Result`. -/

/-- Rust `str::to_lowercase`, modelled as per-character lowercasing of the
underlying character list (the controlled vocabulary is ASCII, where Rust's
Unicode lowercasing agrees with per-character `Char.toLower`). -/
def to_lowercase (s : String) : String := ⟨s.data.map Char.toLower⟩

/-- `JobsucheMcpServer::parse_employment_type`: case-insensitive controlled
vocabulary mapping of employment-type tags to canonical short codes. -/
def parse_employment_type (emp_type : String) : Option String :=
  match to_lowercase emp_type with
  | "fulltime" | "full" | "vollzeit" | "vz" => some "vz"
  | "parttime" | "part" | "teilzeit" | "tz" => some "tz"
  | "mini" | "minijob" | "mini_job" => some "minijob"
  | "home" | "homeoffice" | "home_office" | "ho" => some "ho"
  | "shift" | "schicht" | "snw" => some "snw"
  | _ => none

/-- The `location` string built inside `search_jobs`'s per-job closure:
`format!("{}{}", ort.unwrap_or(""), plz.map(|plz| format!(" ({})", plz)).unwrap_or_default())`. -/
def summary_location (a : ApiArbeitsort) : String :=
  (a.ort.getD "") ++
    (match a.plz with
     | some plz => " (" ++ plz ++ ")"
     | none => "")

/-- The `application_url` fallback in `search_jobs`:
`externe_url.clone().unwrap_or_else(|| format!("https://www.arbeitsagentur.de/jobsuche/jobdetail/{}", refnr))`. -/
def summary_application_url (job : ApiJobListing) : String :=
  match job.externe_url with
  | some u => u
  | none => "https://www.arbeitsagentur.de/jobsuche/jobdetail/" ++ job.refnr

/-- The per-job normalization closure inside `search_jobs`. -/
def normalizeJob (job : ApiJobListing) : JobSummary :=
  { reference_number := job.refnr
    title := match job.titel with
             | some t => t
             | none => job.beruf
    employer := job.arbeitgeber
    location := summary_location job.arbeitsort
    published_date := job.aktuelle_veroeffentlichungsdatum
    external_url := job.externe_url
    application_url := summary_application_url job }

/-- `JobsucheMcpServer::search_jobs`: builds the search string from title,
employer and branch, maps employment-type tags (dropping unrecognized ones),
clamps the page size, queries the client oracle and normalizes each listing. -/
def search_jobs (cfg : JobsucheConfig)
    (client : SearchParams → Except String ApiSearchResponse)
    (params : SearchJobsParams) : Except String SearchJobsResult :=
  let search_terms : List String :=
    params.job_title.toList ++ params.employer.toList ++ params.branch.toList
  let arbeitszeit : Option (List String) :=
    params.employment_type.map (fun types => types.filterMap parse_employment_type)
  let page_size : Nat :=
    min (params.page_size.getD cfg.default_page_size) cfg.max_page_size
  let search_params : SearchParams :=
    { was := if search_terms.isEmpty then none
             else some (String.intercalate " " search_terms)
      wo := params.location
      umkreis := params.radius_km
      size := some page_size
      page := params.page
      veroeffentlichtseit := params.published_since_days
      arbeitszeit := arbeitszeit }
  match client search_params with
  | .error e => .error e
  | .ok response =>
    let jobs : List JobSummary := response.stellenangebote.map normalizeJob
    .ok { total_results := response.max_ergebnisse
          current_page := response.page
          page_size := response.size
          jobs_count := jobs.length
          jobs := jobs
          search_duration_ms := 0 }

/-- The `location_str` computation inside `get_job_details`: first workplace
address, and a string only when its town is present (optional postal suffix). -/
def detail_location (details : ApiJobDetails) : Option String :=
  details.arbeitsorte.bind (fun locs =>
    locs.head?.bind (fun loc =>
      loc.adresse.bind (fun addr =>
        addr.ort.map (fun ort =>
          match addr.plz with
          | some plz => ort ++ " (" ++ plz ++ ")"
          | none => ort))))

/-- The `entry_period` computation inside `get_job_details`. -/
def entry_period_str (details : ApiJobDetails) : Option String :=
  details.eintrittszeitraum.map (fun dr =>
    match dr.von, dr.bis with
    | some von, some bis => von ++ " - " ++ bis
    | some von, none => "ab " ++ von
    | none, some bis => "bis " ++ bis
    | none, none => "")

/-- The `application_url` fallback chain inside `get_job_details`:
`externe_url` then `allianzpartner_url` then the constructed canonical URL. -/
def detail_application_url (details : ApiJobDetails) (reference_number : String) :
    String :=
  match details.externe_url with
  | some u => u
  | none =>
    match details.allianzpartner_url with
    | some u => u
    | none => "https://www.arbeitsagentur.de/jobsuche/jobdetail/" ++ reference_number

/-- `JobsucheMcpServer::get_job_details` over a detail-client oracle. -/
def get_job_details (client : String → Except String ApiJobDetails)
    (params : GetJobDetailsParams) : Except String GetJobDetailsResult :=
  match client params.reference_number with
  | .error e => .error e
  | .ok details =>
    .ok { reference_number := params.reference_number
          title := details.titel
          description := details.stellenbeschreibung
          employer := details.arbeitgeber
          location := detail_location details
          employment_type := details.arbeitszeit_vollzeit.map
            (fun vz => if vz then "Vollzeit" else "Teilzeit")
          salary := details.verguetung
          contract_duration := details.vertragsdauer
          job_type := details.stellenangebots_art
          first_published := details.erste_veroeffentlichungsdatum
          only_for_disabled := details.nur_fuer_schwerbehinderte
          fulltime := details.arbeitszeit_vollzeit
          entry_period := entry_period_str details
          is_minor_employment := details.ist_geringfuegige_beschaeftigung
          is_temp_agency := details.ist_arbeitnehmer_ueberlassung
          career_changer_suitable := details.quereinstieg_geeignet
          external_url := details.externe_url
          partner_url := details.allianzpartner_url
          application_url := detail_application_url details params.reference_number }

/-! ## Batch orchestrator -/

/-- The conversion of a `BatchSearchItem` to `SearchJobsParams` inside the batch
loop: `page_size` is the clamped detail count, `page` is `None`. -/
def batch_to_search_params (max_details : Nat) (item : BatchSearchItem) :
    SearchJobsParams :=
  { job_title := item.job_title
    location := item.location
    radius_km := item.radius_km
    employment_type := item.employment_type
    contract_type := item.contract_type
    published_since_days := item.published_since_days
    page_size := some max_details
    page := none
    employer := item.employer
    branch := item.branch }

/-- One iteration of the batch loop: a failed search records an error outcome
with zero jobs; a successful search fetches up to `max_details` details,
silently skipping any job whose detail fetch fails. -/
def batch_item_result (cfg : JobsucheConfig)
    (searchClient : SearchParams → Except String ApiSearchResponse)
    (detailClient : String → Except String ApiJobDetails)
    (max_details : Nat) (item : BatchSearchItem) : BatchSearchItemResult :=
  match search_jobs cfg searchClient (batch_to_search_params max_details item) with
  | .error e =>
    { search_name := item.name
      total_results := none
      jobs_count := 0
      jobs := []
      error := some ("Search failed: " ++ e) }
  | .ok search_result =>
    let jobs_with_details : List GetJobDetailsResult :=
      if max_details > 0 then
        (search_result.jobs.take max_details).filterMap (fun job =>
          match get_job_details detailClient ⟨job.reference_number⟩ with
          | .ok details => some details
          | .error _ => none)
      else []
    { search_name := item.name
      total_results := search_result.total_results
      jobs_count := jobs_with_details.length
      jobs := jobs_with_details
      error := none }

/-- `JobsucheMcpServer::batch_search_jobs`: clamps the search count to 5 and the
per-search detail count to 5 (default 2), processes the taken searches in input
order (pacing sleeps are time-only and not modelled), and always returns `Ok`. -/
def batch_search_jobs (cfg : JobsucheConfig)
    (searchClient : SearchParams → Except String ApiSearchResponse)
    (detailClient : String → Except String ApiJobDetails)
    (params : BatchSearchJobsParams) : Except String BatchSearchJobsResult :=
  let searches_count := min params.searches.length 5
  let max_details := min (params.max_details_per_search.getD 2) 5
  let results := (params.searches.take searches_count).map
    (batch_item_result cfg searchClient detailClient max_details)
  .ok { searches_count := results.length
        results := results
        total_duration_ms := 0 }

/-! ## Server status -/

/-- The fixed connectivity-probe parameters inside `get_server_status`. -/
def status_probe_params : SearchParams :=
  { was := none
    wo := some "Berlin"
    umkreis := none
    size := some 1
    page := none
    veroeffentlichtseit := none
    arbeitszeit := none }

/-- `JobsucheMcpServer::get_server_status`: reports a connection status string
("Connected" or the error text) instead of propagating the probe's error. -/
def get_server_status (cfg : JobsucheConfig) (uptime_seconds : Nat)
    (client : SearchParams → Except String ApiSearchResponse) :
    Except String JobsucheServerStatus :=
  let connection_status :=
    match client status_probe_params with
    | .ok _ => "Connected"
    | .error e => "Connection Error: " ++ e
  .ok { server_name := "Jobsuche MCP Server"
        version := "0.3.1"
        uptime_seconds := uptime_seconds
        api_url := cfg.api_url
        api_connection_status := connection_status
        tools_count := 4 }

/-! ## API client over raw HTTP responses (for the error-reporting claims)

`JobsucheClient::search` and `JobsucheClient::job_details` are modelled at the
point after the transport returned a status and a body. `serde_json::from_str`
is factored as a text-level parser oracle (`String → Except String Json`)
followed by the structural decoders above. -/

/-- Rust `&text[..text.len().min(500)]`: the first `n` characters of `s`,
modelled on the underlying character list. -/
def take_chars (s : String) (n : Nat) : String := ⟨s.data.take n⟩

/-- A transport-level HTTP response: success flag (`status.is_success()`), the
`Display` text of the status, and the body text. -/
structure HttpResponse where
  success : Bool
  statusText : String
  body : String

/-- `serde_json::from_str::<ApiSearchResponse>`: textual parse then structural
decode, either failure reported as the decode error. -/
def search_from_str (parseJson : String → Except String Json) (text : String) :
    Except String ApiSearchResponse :=
  match parseJson text with
  | .error e => .error e
  | .ok j => decodeSearchResponse j

/-- Decoder for `ApiJobDetails` (derived `Deserialize`, all fields optional,
unknown fields ignored). -/
def decodeAddress : Json → Except String ApiAddress
  | .obj fields =>
    match decodeOptString fields "ort" with
    | .error e => .error e
    | .ok ort =>
      match decodeOptString fields "plz" with
      | .error e => .error e
      | .ok plz => .ok ⟨ort, plz⟩
  | _ => .error "invalid type: expected object for ApiAddress"

/-- Decoder for `ApiJobLocation` (`adresse` is an optional nested object). -/
def decodeJobLocation : Json → Except String ApiJobLocation
  | .obj fields =>
    match jlookup fields "adresse" with
    | none => .ok ⟨none⟩
    | some .null => .ok ⟨none⟩
    | some j =>
      match decodeAddress j with
      | .error e => .error e
      | .ok a => .ok ⟨some a⟩
  | _ => .error "invalid type: expected object for ApiJobLocation"

/-- Decode `Option<Vec<ApiJobLocation>>` (`arbeitsorte`). -/
def decodeOptLocations (fields : List (String × Json)) :
    Except String (Option (List ApiJobLocation)) :=
  match jlookup fields "arbeitsorte" with
  | none => .ok none
  | some .null => .ok none
  | some (.arr xs) =>
    match go xs with
    | .error e => .error e
    | .ok ls => .ok (some ls)
  | some _ => .error "invalid type for field arbeitsorte"
where
  go : List Json → Except String (List ApiJobLocation)
  | [] => .ok []
  | j :: rest =>
    match decodeJobLocation j with
    | .error e => .error e
    | .ok a =>
      match go rest with
      | .error e => .error e
      | .ok as => .ok (a :: as)

/-- Decode `Option<ApiDateRange>`. -/
def decodeOptDateRange (fields : List (String × Json)) (key : String) :
    Except String (Option ApiDateRange) :=
  match jlookup fields key with
  | none => .ok none
  | some .null => .ok none
  | some (.obj dfields) =>
    match decodeOptString dfields "von" with
    | .error e => .error e
    | .ok von =>
      match decodeOptString dfields "bis" with
      | .error e => .error e
      | .ok bis => .ok (some ⟨von, bis⟩)
  | some _ => .error ("invalid type for field " ++ key)

/-- Decoder for `ApiJobDetails`. -/
def decodeJobDetails : Json → Except String ApiJobDetails
  | .obj fields =>
    match decodeOptString fields "titel" with
    | .error e => .error e
    | .ok titel =>
    match decodeOptString fields "stellenbeschreibung" with
    | .error e => .error e
    | .ok beschreibung =>
    match decodeOptString fields "arbeitgeber" with
    | .error e => .error e
    | .ok arbeitgeber =>
    match decodeOptLocations fields with
    | .error e => .error e
    | .ok orte =>
    match decodeOptBool fields "arbeitszeitVollzeit" with
    | .error e => .error e
    | .ok vollzeit =>
    match decodeOptString fields "verguetung" with
    | .error e => .error e
    | .ok verguetung =>
    match decodeOptString fields "vertragsdauer" with
    | .error e => .error e
    | .ok vertragsdauer =>
    match decodeOptString fields "stellenangebotsArt" with
    | .error e => .error e
    | .ok art =>
    match decodeOptString fields "ersteVeroeffentlichungsdatum" with
    | .error e => .error e
    | .ok erste =>
    match decodeOptBool fields "nurFuerSchwerbehinderte" with
    | .error e => .error e
    | .ok nurSchwer =>
    match decodeOptDateRange fields "eintrittszeitraum" with
    | .error e => .error e
    | .ok eintritt =>
    match decodeOptDateRange fields "veroeffentlichungszeitraum" with
    | .error e => .error e
    | .ok veroeff =>
    match decodeOptBool fields "istGeringfuegigeBeschaeftigung" with
    | .error e => .error e
    | .ok geringf =>
    match decodeOptBool fields "istArbeitnehmerUeberlassung" with
    | .error e => .error e
    | .ok ueberlassung =>
    match decodeOptBool fields "istPrivateArbeitsvermittlung" with
    | .error e => .error e
    | .ok privatv =>
    match decodeOptBool fields "quereinstiegGeeignet" with
    | .error e => .error e
    | .ok quer =>
    match decodeOptString fields "chiffrenummer" with
    | .error e => .error e
    | .ok chiffre =>
    match decodeOptString fields "externeUrl" with
    | .error e => .error e
    | .ok ext =>
    match decodeOptString fields "allianzpartnerUrl" with
    | .error e => .error e
    | .ok partner =>
      .ok ⟨titel, beschreibung, arbeitgeber, orte, vollzeit, verguetung,
           vertragsdauer, art, erste, nurSchwer, eintritt, veroeff, geringf,
           ueberlassung, privatv, quer, chiffre, ext, partner⟩
  | _ => .error "invalid type: expected object for ApiJobDetails"

/-- `JobsucheClient::search` from the point where the transport produced a
response: a non-success status is a terminal error; a success status with an
unparseable body is a terminal error `"Failed to parse API response: {e}"`,
and two `warn!` lines are emitted, the second carrying the first 500 characters
of the raw body. Returns the result together with the emitted warn log. -/
def client_search (parseJson : String → Except String Json)
    (resp : HttpResponse) : Except String ApiSearchResponse × List String :=
  if !resp.success then
    (.error ("API error: " ++ resp.statusText), [])
  else
    match search_from_str parseJson resp.body with
    | .ok result => (.ok result, [])
    | .error e =>
      (.error ("Failed to parse API response: " ++ e),
       ["Failed to parse API response: " ++ e,
        "Response body (first 500 chars): " ++ take_chars resp.body 500])

/-- The body decoding performed by `response.json::<ApiJobDetails>()`: textual
parse then structural decode. -/
def details_from_str (parseJson : String → Except String Json) (text : String) :
    Except String ApiJobDetails :=
  match parseJson text with
  | .error e => .error e
  | .ok j => decodeJobDetails j

/-- `JobsucheClient::job_details` from the point where the transport produced a
response: a non-success status is a terminal error; `response.json()` decodes
the body and its failure surfaces as reqwest's body-decoding error, which does
not embed the raw body text. -/
def client_job_details (parseJson : String → Except String Json)
    (resp : HttpResponse) : Except String ApiJobDetails :=
  if !resp.success then
    .error ("API error: " ++ resp.statusText)
  else
    match details_from_str parseJson resp.body with
    | .error e => .error ("error decoding response body: " ++ e)
    | .ok d => .ok d

/-! ## A substring test (used to state what an error message contains) -/

/-- Does the character list `sub` occur at the head of `s`? -/
def charsMatchHead : List Char → List Char → Bool
  | _, [] => true
  | [], _ :: _ => false
  | a :: as, b :: bs => (a = b) && charsMatchHead as bs

/-- Does the character list `sub` occur contiguously anywhere in `s`? -/
def charsContain : List Char → List Char → Bool
  | [], sub => sub.isEmpty
  | a :: as, sub => charsMatchHead (a :: as) sub || charsContain as sub

/-- Does the string `s` contain `sub` as a contiguous substring? -/
def strContains (s sub : String) : Bool :=
  charsContain s.data sub.data

/-! ## Helper lemmas -/

/-- A string with a non-empty left part is non-empty after appending. -/
theorem append_ne_empty (p e : String) (hp : p ≠ "") : p ++ e ≠ "" := by
  intro h
  apply hp
  have hd : p.data ++ e.data = [] := by
    have := congrArg String.data h
    simpa using this
  rcases List.append_eq_nil.mp hd with ⟨hpd, _⟩
  cases p
  simp_all

/-- An `ApiJobDetails` record with every field absent. -/
def emptyDetails : ApiJobDetails :=
  ⟨none, none, none, none, none, none, none, none, none, none, none, none,
   none, none, none, none, none, none, none⟩

/-! ## Claim C1 — application URL fallback chain -/

/-- A search listing whose external URL is present but is the empty string. -/
def c1Listing : ApiJobListing :=
  ⟨"", none, "123-456-789", emptyArbeitsort, "", none, some ""⟩

/-- C1 counterexample: the claim states `application_url` is always a non-empty
string; but for a listing whose external URL is present and equal to `""`, the
normalization in `search_jobs` copies it verbatim and `application_url` is the
empty string. -/
theorem C1_counterexample :
    c1Listing.externe_url = some "" ∧
    (normalizeJob c1Listing).application_url = "" :=
  ⟨rfl, rfl⟩

/-- C1 (amended): `application_url` is computed by the fallback chain — the
external URL when present, otherwise (for details only) the partner URL when
present, otherwise the constructed canonical URL from the reference number —
and it is non-empty whenever the chain falls through to the constructed URL
(both source URLs absent); it can be empty only by copying an empty present
source URL. -/
theorem C1_application_url_fallback (job : ApiJobListing) (d : ApiJobDetails)
    (ref : String) :
    (∀ u, job.externe_url = some u → (normalizeJob job).application_url = u)
    ∧ (job.externe_url = none →
        (normalizeJob job).application_url =
          "https://www.arbeitsagentur.de/jobsuche/jobdetail/" ++ job.refnr
        ∧ (normalizeJob job).application_url ≠ "")
    ∧ (∀ u, d.externe_url = some u → detail_application_url d ref = u)
    ∧ (d.externe_url = none → ∀ u, d.allianzpartner_url = some u →
        detail_application_url d ref = u)
    ∧ (d.externe_url = none → d.allianzpartner_url = none →
        detail_application_url d ref =
          "https://www.arbeitsagentur.de/jobsuche/jobdetail/" ++ ref
        ∧ detail_application_url d ref ≠ "") := by
  refine ⟨?_, ?_, ?_, ?_, ?_⟩
  · intro u hu
    simp [normalizeJob, summary_application_url, hu]
  · intro h
    constructor
    · simp [normalizeJob, summary_application_url, h]
    · simp only [normalizeJob, summary_application_url, h]
      exact append_ne_empty _ _ (by decide)
  · intro u hu
    simp [detail_application_url, hu]
  · intro h u hu
    simp [detail_application_url, h, hu]
  · intro h1 h2
    constructor
    · simp [detail_application_url, h1, h2]
    · simp only [detail_application_url, h1, h2]
      exact append_ne_empty _ _ (by decide)

/-- C1 witness: the amended theorem applied at concrete inputs — a listing with
no external URL gets the constructed canonical URL, and a detail record with
only a partner URL gets the partner URL. -/
theorem C1_application_url_fallback_witness :
    (normalizeJob ⟨"B", none, "10001-1000-S", emptyArbeitsort, "E", none, none⟩).application_url =
      "https://www.arbeitsagentur.de/jobsuche/jobdetail/10001-1000-S"
    ∧ detail_application_url { emptyDetails with allianzpartner_url := some "https://partner.example/123" } "R1" =
      "https://partner.example/123" := by
  constructor
  · exact ((C1_application_url_fallback
      ⟨"B", none, "10001-1000-S", emptyArbeitsort, "E", none, none⟩
      emptyDetails "R1").2.1 rfl).1
  · exact (C1_application_url_fallback
      ⟨"B", none, "10001-1000-S", emptyArbeitsort, "E", none, none⟩
      { emptyDetails with allianzpartner_url := some "https://partner.example/123" }
      "R1").2.2.2.1 rfl _ rfl

/-! ## Claim C4 — title fallback -/

/-- A listing with a present-but-empty display title and a non-empty
occupation label. -/
def c4Listing : ApiJobListing :=
  ⟨"Engineer", some "", "r", emptyArbeitsort, "", none, none⟩

/-- C4 counterexample: the claim states the normalized title is never empty
when the record has either a display title or an occupation label; but a
listing whose display title is present and empty normalizes to an empty title
even though its occupation label is the non-empty `"Engineer"`. -/
theorem C4_counterexample :
    c4Listing.titel = some "" ∧ c4Listing.beruf = "Engineer" ∧
    ("Engineer" : String) ≠ "" ∧ (normalizeJob c4Listing).title = "" :=
  ⟨rfl, rfl, by decide, rfl⟩

/-- C4 (amended): the normalized title equals the display-title field when that
field is present and the occupation-label field otherwise; it is empty exactly
when the selected source is empty — that is, when the display title is present
and empty, or the display title is absent and the occupation label is empty. -/
theorem C4_title_fallback (job : ApiJobListing) :
    (∀ t, job.titel = some t → (normalizeJob job).title = t)
    ∧ (job.titel = none → (normalizeJob job).title = job.beruf)
    ∧ ((normalizeJob job).title = "" ↔
        job.titel = some "" ∨ (job.titel = none ∧ job.beruf = "")) := by
  refine ⟨?_, ?_, ?_⟩
  · intro t ht
    simp [normalizeJob, ht]
  · intro h
    simp [normalizeJob, h]
  · cases h : job.titel <;> simp [normalizeJob, h]

/-- C4 witness: the amended theorem applied at concrete listings — a missing
display title falls back to the occupation label. -/
theorem C4_title_fallback_witness :
    (normalizeJob ⟨"Bäcker/in", none, "r", emptyArbeitsort, "", none, none⟩).title = "Bäcker/in"
    ∧ (normalizeJob ⟨"Bäcker/in", some "Head Baker", "r", emptyArbeitsort, "", none, none⟩).title = "Head Baker" := by
  constructor
  · exact (C4_title_fallback ⟨"Bäcker/in", none, "r", emptyArbeitsort, "", none, none⟩).2.1 rfl
  · exact (C4_title_fallback ⟨"Bäcker/in", some "Head Baker", "r", emptyArbeitsort, "", none, none⟩).1 _ rfl

/-! ## Claim C5 — location string rendering -/

/-- A listing with town absent and a postal code present. -/
def c5Listing : ApiJobListing :=
  ⟨"", none, "r", ⟨none, some "10115", none, none⟩, "", none, none⟩

/-- A detail record whose first workplace address has no town but a postal
code. -/
def c5Details : ApiJobDetails :=
  { emptyDetails with arbeitsorte := some [⟨some ⟨none, some "10115"⟩⟩] }

/-- C5 counterexample: the claim states that with the town absent and a postal
code present the summary location is `"({postal_code})"`; the code actually
renders `" (10115)"` with a leading space. Moreover, in the same situation the
detail variant does not apply the suffix rule at all: it yields no location
string rather than `"(10115)"`. -/
theorem C5_counterexample :
    (normalizeJob c5Listing).location = " (10115)"
    ∧ (" (10115)" : String) ≠ "(10115)"
    ∧ detail_location c5Details = none :=
  ⟨rfl, by decide, rfl⟩

/-- C5 (amended): the summary location is the town (or `""` when absent)
directly concatenated with `" ({postal_code})"` exactly when a postal code is
present — so with the town absent and a postal code present the result is
`" ({postal_code})"` with a leading space, and with both absent it is `""`.
The detail variant picks the first workplace-address entry and produces a
location string only when that address's town is present, the town with the
same optional postal-code suffix; when the town is absent the detail location
is absent regardless of the postal code, and it is also absent when there is
no workplace list, no entry, or no address. -/
theorem C5_location_rendering (t p : String) (rg ld : Option String)
    (d : ApiJobDetails) (loc : ApiJobLocation) (addr : ApiAddress)
    (rest : List ApiJobLocation) :
    summary_location ⟨some t, some p, rg, ld⟩ = t ++ " (" ++ p ++ ")"
    ∧ summary_location ⟨some t, none, rg, ld⟩ = t
    ∧ summary_location ⟨none, some p, rg, ld⟩ = " (" ++ p ++ ")"
    ∧ summary_location ⟨none, none, rg, ld⟩ = ""
    ∧ (d.arbeitsorte = some (loc :: rest) → loc.adresse = some addr →
        addr.ort = some t → addr.plz = some p →
        detail_location d = some (t ++ " (" ++ p ++ ")"))
    ∧ (d.arbeitsorte = some (loc :: rest) → loc.adresse = some addr →
        addr.ort = some t → addr.plz = none →
        detail_location d = some t)
    ∧ (d.arbeitsorte = some (loc :: rest) → loc.adresse = some addr →
        addr.ort = none → detail_location d = none)
    ∧ (d.arbeitsorte = some (loc :: rest) → loc.adresse = none →
        detail_location d = none)
    ∧ (d.arbeitsorte = some [] → detail_location d = none)
    ∧ (d.arbeitsorte = none → detail_location d = none) := by
  refine ⟨?_, ?_, ?_, ?_, ?_, ?_, ?_, ?_, ?_, ?_⟩
  · simp [summary_location, String.append_assoc]
  · simp [summary_location]
  · simp [summary_location, String.append_assoc]
  · simp [summary_location]
  · intro h1 h2 h3 h4
    simp [detail_location, h1, h2, h3, h4, String.append_assoc]
  · intro h1 h2 h3 h4
    simp [detail_location, h1, h2, h3, h4]
  · intro h1 h2 h3
    simp [detail_location, h1, h2, h3]
  · intro h1 h2
    simp [detail_location, h1, h2]
  · intro h1
    simp [detail_location, h1]
  · intro h1
    simp [detail_location, h1]

/-- C5 witness: the amended theorem applied at concrete inputs — the spec's own
positive examples `("Berlin", "10115") ↦ "Berlin (10115)"` and
`("Berlin", None) ↦ "Berlin"`, for the summary and the detail variant. -/
theorem C5_location_rendering_witness :
    summary_location ⟨some "Berlin", some "10115", none, none⟩ = "Berlin (10115)"
    ∧ summary_location ⟨some "Berlin", none, none, none⟩ = "Berlin"
    ∧ detail_location { emptyDetails with
        arbeitsorte := some [⟨some ⟨some "Berlin", some "10115"⟩⟩] } =
      some "Berlin (10115)" := by
  refine ⟨?_, ?_, ?_⟩
  · exact (C5_location_rendering "Berlin" "10115" none none emptyDetails
      ⟨none⟩ ⟨none, none⟩ []).1
  · exact (C5_location_rendering "Berlin" "10115" none none emptyDetails
      ⟨none⟩ ⟨none, none⟩ []).2.1
  · exact (C5_location_rendering "Berlin" "10115" none none
      { emptyDetails with
        arbeitsorte := some [⟨some ⟨some "Berlin", some "10115"⟩⟩] }
      ⟨some ⟨some "Berlin", some "10115"⟩⟩ ⟨some "Berlin", some "10115"⟩
      []).2.2.2.2.1 rfl rfl rfl rfl

/-! ## Claim C6 — entry-period rendering -/

/-- C6 counterexample: the claim states the rendered entry-period string is the
empty string, present rather than absent, whenever neither range endpoint is
present; but for a detail record with no entry-period range at all (hence no
endpoints), the rendered string is absent (`none`), not `some ""`. -/
theorem C6_counterexample :
    emptyDetails.eintrittszeitraum = none
    ∧ entry_period_str emptyDetails = none
    ∧ (none : Option String) ≠ some "" :=
  ⟨rfl, rfl, by decide⟩

/-- C6 (amended): whenever the entry-period range record is present, the
rendered string is `"{from} - {to}"` with both endpoints present, `"ab {from}"`
with only `from`, `"bis {to}"` with only `to`, and the present empty string
with neither; when the range record itself is absent, the rendered string is
absent. -/
theorem C6_entry_period (d : ApiJobDetails) (von bis : String) :
    (d.eintrittszeitraum = some ⟨some von, some bis⟩ →
      entry_period_str d = some (von ++ " - " ++ bis))
    ∧ (d.eintrittszeitraum = some ⟨some von, none⟩ →
      entry_period_str d = some ("ab " ++ von))
    ∧ (d.eintrittszeitraum = some ⟨none, some bis⟩ →
      entry_period_str d = some ("bis " ++ bis))
    ∧ (d.eintrittszeitraum = some ⟨none, none⟩ →
      entry_period_str d = some "")
    ∧ (d.eintrittszeitraum = none → entry_period_str d = none) := by
  refine ⟨?_, ?_, ?_, ?_, ?_⟩ <;> intro h <;> simp [entry_period_str, h]

/-- C6 witness: the amended theorem applied at the spec's concrete examples. -/
theorem C6_entry_period_witness :
    entry_period_str { emptyDetails with
      eintrittszeitraum := some ⟨some "2024-01-01", some "2024-06-01"⟩ } =
        some "2024-01-01 - 2024-06-01"
    ∧ entry_period_str { emptyDetails with
      eintrittszeitraum := some ⟨some "2024-01-01", none⟩ } = some "ab 2024-01-01"
    ∧ entry_period_str { emptyDetails with
      eintrittszeitraum := some ⟨none, some "2024-06-01"⟩ } = some "bis 2024-06-01"
    ∧ entry_period_str { emptyDetails with
      eintrittszeitraum := some ⟨none, none⟩ } = some "" := by
  refine ⟨?_, ?_, ?_, ?_⟩
  · exact (C6_entry_period _ "2024-01-01" "2024-06-01").1 rfl
  · exact (C6_entry_period _ "2024-01-01" "2024-06-01").2.1 rfl
  · exact (C6_entry_period _ "2024-01-01" "2024-06-01").2.2.1 rfl
  · exact (C6_entry_period _ "2024-01-01" "2024-06-01").2.2.2.1 rfl

/-! ## Claim C9 — employment-type vocabulary -/

/-- C9: the employment-type tag mapping is case-insensitive (it depends only on
the lowercased tag), every synonym of each of the five sets maps to that set's
canonical short code, an unrecognized tag maps to nothing, and an unrecognized
tag is dropped from the mapped tag list (as built by `search_jobs`'s
`filter_map`) without affecting the other tags. -/
theorem C9_employment_type_vocab :
    (∀ s t, to_lowercase s = to_lowercase t →
      parse_employment_type s = parse_employment_type t)
    ∧ (∀ s, to_lowercase s ∈ (["fulltime", "full", "vollzeit", "vz"] : List String) →
        parse_employment_type s = some "vz")
    ∧ (∀ s, to_lowercase s ∈ (["parttime", "part", "teilzeit", "tz"] : List String) →
        parse_employment_type s = some "tz")
    ∧ (∀ s, to_lowercase s ∈ (["mini", "minijob", "mini_job"] : List String) →
        parse_employment_type s = some "minijob")
    ∧ (∀ s, to_lowercase s ∈ (["home", "homeoffice", "home_office", "ho"] : List String) →
        parse_employment_type s = some "ho")
    ∧ (∀ s, to_lowercase s ∈ (["shift", "schicht", "snw"] : List String) →
        parse_employment_type s = some "snw")
    ∧ parse_employment_type "unknown_tag" = none
    ∧ (∀ (pre post : List String) (t : String), parse_employment_type t = none →
        (pre ++ t :: post).filterMap parse_employment_type =
          (pre ++ post).filterMap parse_employment_type) := by
  refine ⟨?_, ?_, ?_, ?_, ?_, ?_, by decide, ?_⟩
  · intro s t h
    unfold parse_employment_type
    rw [h]
  · intro s h
    simp only [List.mem_cons, List.not_mem_nil, or_false] at h
    unfold parse_employment_type
    rcases h with h | h | h | h <;> rw [h] <;> rfl
  · intro s h
    simp only [List.mem_cons, List.not_mem_nil, or_false] at h
    unfold parse_employment_type
    rcases h with h | h | h | h <;> rw [h] <;> rfl
  · intro s h
    simp only [List.mem_cons, List.not_mem_nil, or_false] at h
    unfold parse_employment_type
    rcases h with h | h | h <;> rw [h] <;> rfl
  · intro s h
    simp only [List.mem_cons, List.not_mem_nil, or_false] at h
    unfold parse_employment_type
    rcases h with h | h | h | h <;> rw [h] <;> rfl
  · intro s h
    simp only [List.mem_cons, List.not_mem_nil, or_false] at h
    unfold parse_employment_type
    rcases h with h | h | h <;> rw [h] <;> rfl
  · intro pre post t h
    simp [List.filterMap_append, List.filterMap_cons, h]

/-- C9 witness: the theorem applied at concrete tags — the spec's examples
`"Vollzeit"`, `"fulltime"`, `"VZ"` all map to `"vz"`, one representative of
each other set maps to its code, and the unrecognized `"unknown_tag"` is
dropped from a concrete tag list. -/
theorem C9_employment_type_vocab_witness :
    parse_employment_type "VOLLZEIT" = parse_employment_type "Vollzeit"
    ∧ parse_employment_type "Vollzeit" = some "vz"
    ∧ parse_employment_type "fulltime" = some "vz"
    ∧ parse_employment_type "VZ" = some "vz"
    ∧ parse_employment_type "Teilzeit" = some "tz"
    ∧ parse_employment_type "MINI_JOB" = some "minijob"
    ∧ parse_employment_type "HomeOffice" = some "ho"
    ∧ parse_employment_type "Schicht" = some "snw"
    ∧ ["Vollzeit", "unknown_tag", "TZ"].filterMap parse_employment_type =
        ["Vollzeit", "TZ"].filterMap parse_employment_type := by
  obtain ⟨h1, h2, h3, h4, h5, h6, h7, h8⟩ := C9_employment_type_vocab
  exact ⟨h1 "VOLLZEIT" "Vollzeit" (by decide),
         h2 "Vollzeit" (by decide),
         h2 "fulltime" (by decide),
         h2 "VZ" (by decide),
         h3 "Teilzeit" (by decide),
         h4 "MINI_JOB" (by decide),
         h5 "HomeOffice" (by decide),
         h6 "Schicht" (by decide),
         h8 ["Vollzeit"] ["TZ"] "unknown_tag" h7⟩

/-! ## Claim C7 — decoding tolerance -/

/-- Looking up a key in concatenated field lists tries the left list first. -/
theorem jlookup_append (fs gs : List (String × Json)) (k : String) :
    jlookup (fs ++ gs) k =
      match jlookup fs k with
      | some v => some v
      | none => jlookup gs k := by
  induction fs with
  | nil => simp [jlookup]
  | cons p rest ih =>
    obtain ⟨pk, pv⟩ := p
    by_cases h : pk = k <;> simp [jlookup, h, ih]

/-- A key bound by none of the fields looks up to `none`. -/
theorem jlookup_eq_none (ex : List (String × Json)) (k : String)
    (h : ∀ p ∈ ex, p.1 ≠ k) : jlookup ex k = none := by
  induction ex with
  | nil => rfl
  | cons p rest ih =>
    obtain ⟨pk, pv⟩ := p
    have hk : pk ≠ k := h (pk, pv) (List.mem_cons_self _ _)
    simp only [jlookup, if_neg hk]
    exact ih fun q hq => h q (List.mem_cons_of_mem _ hq)

/-- Appending fields whose keys never hit `k` does not change `k`'s lookup. -/
theorem jlookup_append_extra (fs ex : List (String × Json)) (k : String)
    (h : jlookup ex k = none) : jlookup (fs ++ ex) k = jlookup fs k := by
  rw [jlookup_append, h]
  cases jlookup fs k <;> rfl

/-- `decodeOptString` depends only on its key's lookup. -/
theorem decodeOptString_congr (fs gs : List (String × Json)) (k : String)
    (h : jlookup fs k = jlookup gs k) :
    decodeOptString fs k = decodeOptString gs k := by
  unfold decodeOptString
  rw [h]

/-- `decodeDefString` depends only on its key's lookup. -/
theorem decodeDefString_congr (fs gs : List (String × Json)) (k : String)
    (h : jlookup fs k = jlookup gs k) :
    decodeDefString fs k = decodeDefString gs k := by
  unfold decodeDefString
  rw [h]

/-- `decodeOptNat` depends only on its key's lookup. -/
theorem decodeOptNat_congr (fs gs : List (String × Json)) (k : String)
    (h : jlookup fs k = jlookup gs k) :
    decodeOptNat fs k = decodeOptNat gs k := by
  unfold decodeOptNat
  rw [h]

/-- `decodeDefArbeitsort` depends only on the `arbeitsort` lookup. -/
theorem decodeDefArbeitsort_congr (fs gs : List (String × Json))
    (h : jlookup fs "arbeitsort" = jlookup gs "arbeitsort") :
    decodeDefArbeitsort fs = decodeDefArbeitsort gs := by
  unfold decodeDefArbeitsort
  rw [h]

/-- The listing decoder only consults its known keys. -/
theorem decodeJobListing_congr (fs gs : List (String × Json))
    (h : ∀ k ∈ jobListingKeys, jlookup fs k = jlookup gs k) :
    decodeJobListing (.obj fs) = decodeJobListing (.obj gs) := by
  simp only [decodeJobListing]
  rw [decodeDefString_congr fs gs "beruf" (h _ (by decide)),
      decodeOptString_congr fs gs "titel" (h _ (by decide)),
      decodeDefString_congr fs gs "refnr" (h _ (by decide)),
      decodeDefArbeitsort_congr fs gs (h _ (by decide)),
      decodeDefString_congr fs gs "arbeitgeber" (h _ (by decide)),
      decodeOptString_congr fs gs "aktuelleVeroeffentlichungsdatum" (h _ (by decide)),
      decodeOptString_congr fs gs "externeUrl" (h _ (by decide))]

/-- The search-response decoder only consults its known keys. -/
theorem decodeSearchResponse_congr (fs gs : List (String × Json))
    (h : ∀ k ∈ searchResponseKeys, jlookup fs k = jlookup gs k) :
    decodeSearchResponse (.obj fs) = decodeSearchResponse (.obj gs) := by
  simp only [decodeSearchResponse]
  rw [h "stellenangebote" (by decide),
      decodeOptNat_congr fs gs "maxErgebnisse" (h _ (by decide)),
      decodeOptNat_congr fs gs "page" (h _ (by decide)),
      decodeOptNat_congr fs gs "size" (h _ (by decide))]

/-- A response object with no `stellenangebote` key decodes (when it decodes at
all) to the empty job list. -/
theorem searchResponse_missing_list (fs : List (String × Json))
    (hl : jlookup fs "stellenangebote" = none) :
    ∀ r, decodeSearchResponse (.obj fs) = .ok r → r.stellenangebote = [] := by
  intro r hr
  have hcomp : decodeSearchResponse (.obj fs) =
      (match decodeOptNat fs "maxErgebnisse" with
       | .error e => .error e
       | .ok me =>
         match decodeOptNat fs "page" with
         | .error e => .error e
         | .ok pg =>
           match decodeOptNat fs "size" with
           | .error e => .error e
           | .ok sz => .ok ⟨[], me, pg, sz⟩) := by
    simp only [decodeSearchResponse]
    rw [hl]
  rw [hcomp] at hr
  cases hme : decodeOptNat fs "maxErgebnisse" with
  | error e => rw [hme] at hr; simp at hr
  | ok me =>
    rw [hme] at hr
    cases hpg : decodeOptNat fs "page" with
    | error e => rw [hpg] at hr; simp at hr
    | ok pg =>
      rw [hpg] at hr
      cases hsz : decodeOptNat fs "size" with
      | error e => rw [hsz] at hr; simp at hr
      | ok sz =>
        rw [hsz] at hr
        simp only [Except.ok.injEq] at hr
        rw [← hr]

/-- C7: decoding is tolerant — appending unrecognized top-level fields to a
search-response object, or unrecognized fields to a job-listing object, leaves
the decode result (and hence the normalized output) unchanged; and an object
with no results-list field decodes to an empty job list rather than an error. -/
theorem C7_tolerant_decoding (fs ex gs ex2 : List (String × Json))
    (htop : ∀ p ∈ ex, p.1 ∉ searchResponseKeys)
    (hnested : ∀ p ∈ ex2, p.1 ∉ jobListingKeys) :
    decodeSearchResponse (.obj (fs ++ ex)) = decodeSearchResponse (.obj fs)
    ∧ decodeJobListing (.obj (gs ++ ex2)) = decodeJobListing (.obj gs)
    ∧ Except.map normalizeJob (decodeJobListing (.obj (gs ++ ex2))) =
        Except.map normalizeJob (decodeJobListing (.obj gs))
    ∧ ((∀ p ∈ fs, p.1 ≠ "stellenangebote") →
        ∀ r, decodeSearchResponse (.obj fs) = .ok r → r.stellenangebote = []) := by
  have hlist : decodeJobListing (.obj (gs ++ ex2)) = decodeJobListing (.obj gs) := by
    apply decodeJobListing_congr
    intro k hk
    apply jlookup_append_extra
    apply jlookup_eq_none
    intro p hp hpk
    exact hnested p hp (hpk ▸ hk)
  refine ⟨?_, hlist, by rw [hlist], ?_⟩
  · apply decodeSearchResponse_congr
    intro k hk
    apply jlookup_append_extra
    apply jlookup_eq_none
    intro p hp hpk
    exact htop p hp (hpk ▸ hk)
  · intro hno
    exact searchResponse_missing_list fs (jlookup_eq_none fs _ hno)

/-- C7 witness: the theorem applied at concrete objects — an unknown top-level
field (`"bewerbungsfrist"`) and an unknown nested listing field
(`"koordinaten"`) are ignored, and an object without `stellenangebote` decodes
to the empty job list. -/
theorem C7_tolerant_decoding_witness :
    decodeSearchResponse
        (.obj [("maxErgebnisse", Json.num 3), ("bewerbungsfrist", Json.str "x")]) =
      decodeSearchResponse (.obj [("maxErgebnisse", Json.num 3)])
    ∧ decodeSearchResponse (.obj [("maxErgebnisse", Json.num 3)]) =
        .ok ⟨[], some 3, none, none⟩
    ∧ Except.map normalizeJob
        (decodeJobListing (.obj [("refnr", Json.str "R1"), ("koordinaten", Json.null)])) =
      Except.map normalizeJob (decodeJobListing (.obj [("refnr", Json.str "R1")])) := by
  have h := C7_tolerant_decoding
    [("maxErgebnisse", Json.num 3)] [("bewerbungsfrist", Json.str "x")]
    [("refnr", Json.str "R1")] [("koordinaten", Json.null)]
    (by decide) (by decide)
  exact ⟨h.1, rfl, h.2.2.1⟩

/-! ## Batch orchestrator lemmas -/

/-- Every batch outcome carries its item's name, in both branches. -/
theorem batch_item_result_name (cfg : JobsucheConfig)
    (sc : SearchParams → Except String ApiSearchResponse)
    (dc : String → Except String ApiJobDetails)
    (md : Nat) (item : BatchSearchItem) :
    (batch_item_result cfg sc dc md item).search_name = item.name := by
  unfold batch_item_result
  split <;> rfl

/-- A failed search produces the error outcome with zero jobs. -/
theorem batch_item_result_error (cfg : JobsucheConfig)
    (sc : SearchParams → Except String ApiSearchResponse)
    (dc : String → Except String ApiJobDetails)
    (md : Nat) (item : BatchSearchItem) (e : String)
    (h : search_jobs cfg sc (batch_to_search_params md item) = .error e) :
    batch_item_result cfg sc dc md item =
      { search_name := item.name
        total_results := none
        jobs_count := 0
        jobs := []
        error := some ("Search failed: " ++ e) } := by
  unfold batch_item_result
  rw [h]

/-- A successful search produces an error-free outcome whose job list keeps, in
order, exactly the taken summaries whose detail fetch succeeded. -/
theorem batch_item_result_ok (cfg : JobsucheConfig)
    (sc : SearchParams → Except String ApiSearchResponse)
    (dc : String → Except String ApiJobDetails)
    (md : Nat) (item : BatchSearchItem) (sr : SearchJobsResult)
    (h : search_jobs cfg sc (batch_to_search_params md item) = .ok sr) :
    (batch_item_result cfg sc dc md item).error = none
    ∧ (batch_item_result cfg sc dc md item).jobs =
        (if md > 0 then
          (sr.jobs.take md).filterMap
            (fun job => (get_job_details dc ⟨job.reference_number⟩).toOption)
         else []) := by
  unfold batch_item_result
  rw [h]
  refine ⟨rfl, ?_⟩
  show (if md > 0 then
          (sr.jobs.take md).filterMap (fun job =>
            match get_job_details dc ⟨job.reference_number⟩ with
            | .ok details => some details
            | .error _ => none)
        else []) = _
  have hfe : (fun (job : JobSummary) =>
      match get_job_details dc ⟨job.reference_number⟩ with
      | .ok details => some details
      | .error _ => none) =
      (fun job => (get_job_details dc ⟨job.reference_number⟩).toOption) := by
    funext job
    cases get_job_details dc ⟨job.reference_number⟩ <;> rfl
  rw [hfe]

/-! ## Claim C2 — batch outcome list shape -/

/-- C2: a batch call always succeeds with exactly `min n 5` outcomes for `n`
requested searches, the outcomes carry the names of the taken searches in input
order, and whenever the search of the item at a position fails, the outcome at
that position has `jobs_count = 0` and a non-empty error message (while the
outcome list still covers every taken item). -/
theorem C2_batch_shape (cfg : JobsucheConfig)
    (sc : SearchParams → Except String ApiSearchResponse)
    (dc : String → Except String ApiJobDetails)
    (params : BatchSearchJobsParams) :
    ∃ res, batch_search_jobs cfg sc dc params = .ok res
      ∧ res.results.length = min params.searches.length 5
      ∧ res.results.map (fun r => r.search_name) =
          (params.searches.take (min params.searches.length 5)).map (fun s => s.name)
      ∧ (∀ i (hi : i < res.results.length) (hj : i < params.searches.length)
          (e : String),
          search_jobs cfg sc
            (batch_to_search_params
              (min (params.max_details_per_search.getD 2) 5)
              params.searches[i]) = .error e →
          res.results[i].jobs_count = 0
          ∧ ∃ msg, res.results[i].error = some msg ∧ msg ≠ "") := by
  refine ⟨_, rfl, ?_, ?_, ?_⟩
  · simp only [List.length_map, List.length_take]
    omega
  · rw [List.map_map]
    exact List.map_congr_left fun item _ => batch_item_result_name cfg sc dc _ item
  · intro i hi hj e h
    simp only [List.getElem_map, List.getElem_take]
    rw [batch_item_result_error cfg sc dc _ _ e h]
    exact ⟨rfl, "Search failed: " ++ e, rfl, append_ne_empty _ _ (by decide)⟩

/-! ## Concrete fixtures for witnesses -/

/-- A concrete configuration. -/
def cfg0 : JobsucheConfig :=
  ⟨"https://rest.arbeitsagentur.de/jobboerse/jobsuche-service",
   some "jobboerse-jobsuche", 25, 100⟩

/-- A concrete search listing. -/
def listing0 : ApiJobListing :=
  ⟨"Bäcker/in", some "Bäckermeister gesucht", "10000-1",
   ⟨some "Berlin", some "10115", none, none⟩, "Backhaus GmbH",
   some "2024-01-01", none⟩

/-- A concrete successful search response. -/
def response0 : ApiSearchResponse := ⟨[listing0], some 42, some 1, some 25⟩

/-- A search client that always succeeds with `response0`. -/
def scOk : SearchParams → Except String ApiSearchResponse :=
  fun _ => .ok response0

/-- A search client that always fails. -/
def scFail : SearchParams → Except String ApiSearchResponse :=
  fun _ => .error "connection refused"

/-- A detail client that always fails. -/
def dcFail : String → Except String ApiJobDetails :=
  fun _ => .error "404 Not Found"

/-- A concrete pair of batch search items. -/
def bparams0 : BatchSearchJobsParams :=
  ⟨[⟨"first", some "Bäcker", some "Berlin", none, none, none, none, none, none⟩,
    ⟨"second", none, none, none, none, none, none, some "Backhaus GmbH", none⟩],
   some 3⟩

/-- The first batch item of `bparams0`. -/
def item0 : BatchSearchItem :=
  ⟨"first", some "Bäcker", some "Berlin", none, none, none, none, none, none⟩

/-- The batch result produced from `bparams0` when every search fails. -/
def batchres0 : BatchSearchJobsResult :=
  ⟨2,
   [⟨"first", none, 0, [], some "Search failed: connection refused"⟩,
    ⟨"second", none, 0, [], some "Search failed: connection refused"⟩],
   0⟩

/-- C2 witness: the theorem applied to a concrete batch of two searches against
a failing client — both outcomes are present, in order, with zero jobs and the
non-empty error message. -/
theorem C2_batch_shape_witness :
    batch_search_jobs cfg0 scFail dcFail bparams0 = .ok batchres0
    ∧ batchres0.results.length = min bparams0.searches.length 5
    ∧ batchres0.results.map (fun r => r.search_name) =
        (bparams0.searches.take (min bparams0.searches.length 5)).map (fun s => s.name)
    ∧ batchres0.results.map (fun r => (r.jobs_count, r.error)) =
        [(0, some "Search failed: connection refused"),
         (0, some "Search failed: connection refused")]
    ∧ ("Search failed: connection refused" : String) ≠ "" := by
  obtain ⟨res, h1, h2, h3, _⟩ := C2_batch_shape cfg0 scFail dcFail bparams0
  have h0 : batch_search_jobs cfg0 scFail dcFail bparams0 = .ok batchres0 := rfl
  have hres : res = batchres0 := by
    rw [h0] at h1
    exact (Except.ok.inj h1).symm
  subst hres
  exact ⟨h0, h2, h3, rfl, by decide⟩

/-! ## Claim C3 — no terminal error from sub-call failures -/

/-- C3: a batch call always returns a successful aggregate (never a terminal
error); a successfully searched item's outcome carries no error and its job
list is exactly the successful detail fetches of the taken summaries (failed
fetches are silently omitted); and the status probe always succeeds, reporting
"Connected" or the connection error text inline. -/
theorem C3_no_terminal_error (cfg : JobsucheConfig)
    (sc : SearchParams → Except String ApiSearchResponse)
    (dc : String → Except String ApiJobDetails)
    (params : BatchSearchJobsParams) (uptime : Nat)
    (md : Nat) (item : BatchSearchItem) :
    (∃ res, batch_search_jobs cfg sc dc params = .ok res)
    ∧ (∀ sr, search_jobs cfg sc (batch_to_search_params md item) = .ok sr →
        (batch_item_result cfg sc dc md item).error = none
        ∧ (batch_item_result cfg sc dc md item).jobs =
            (if md > 0 then
              (sr.jobs.take md).filterMap
                (fun job => (get_job_details dc ⟨job.reference_number⟩).toOption)
             else []))
    ∧ (∃ st, get_server_status cfg uptime sc = .ok st
        ∧ (∀ r, sc status_probe_params = .ok r →
            st.api_connection_status = "Connected")
        ∧ (∀ e, sc status_probe_params = .error e →
            st.api_connection_status = "Connection Error: " ++ e)) := by
  refine ⟨⟨_, rfl⟩, ?_, ?_⟩
  · intro sr h
    exact batch_item_result_ok cfg sc dc md item sr h
  · refine ⟨_, rfl, ?_, ?_⟩
    · intro r h
      show (match sc status_probe_params with
            | .ok _ => "Connected"
            | .error e => "Connection Error: " ++ e) = "Connected"
      rw [h]
    · intro e h
      show (match sc status_probe_params with
            | .ok _ => "Connected"
            | .error e => "Connection Error: " ++ e) = "Connection Error: " ++ e
      rw [h]

/-- C3 witness: the theorem applied to concrete clients — the batch over a
failing search client still returns `Ok`; a successful search with a failing
detail client yields an error-free outcome with every job omitted; and the
status probe against the failing client reports the error text inline. -/
theorem C3_no_terminal_error_witness :
    batch_search_jobs cfg0 scFail dcFail bparams0 = .ok batchres0
    ∧ (batch_item_result cfg0 scOk dcFail 2 item0).error = none
    ∧ (batch_item_result cfg0 scOk dcFail 2 item0).jobs = []
    ∧ get_server_status cfg0 7 scFail =
        .ok ⟨"Jobsuche MCP Server", "0.3.1", 7, cfg0.api_url,
             "Connection Error: connection refused", 4⟩ := by
  have hok := (C3_no_terminal_error cfg0 scOk dcFail bparams0 7 2 item0).2.1 _ rfl
  obtain ⟨st, hst, _, herr⟩ :=
    (C3_no_terminal_error cfg0 scFail dcFail bparams0 7 2 item0).2.2
  have hcs := herr "connection refused" rfl
  exact ⟨rfl, hok.1, hok.2.trans rfl, rfl⟩

/-! ## Claim C10 — count fields equal list lengths -/

/-- C10: in every returned `SearchJobsResult`, `jobs_count` equals the length
of `jobs`; in every `BatchSearchJobsResult`, `searches_count` equals the length
of `results` and every contained outcome's `jobs_count` equals the length of
its `jobs`. -/
theorem C10_counts (cfg : JobsucheConfig)
    (sc : SearchParams → Except String ApiSearchResponse)
    (dc : String → Except String ApiJobDetails)
    (paramsS : SearchJobsParams) (paramsB : BatchSearchJobsParams) :
    (∀ r, search_jobs cfg sc paramsS = .ok r → r.jobs_count = r.jobs.length)
    ∧ (∀ rb, batch_search_jobs cfg sc dc paramsB = .ok rb →
        rb.searches_count = rb.results.length
        ∧ ∀ item ∈ rb.results, item.jobs_count = item.jobs.length) := by
  constructor
  · intro r hr
    simp only [search_jobs] at hr
    split at hr
    · exact absurd hr (by simp)
    · injection hr with h
      subst h
      rfl
  · intro rb hrb
    simp only [batch_search_jobs] at hrb
    injection hrb with h
    subst h
    refine ⟨rfl, ?_⟩
    intro item hitem
    simp only [List.mem_map] at hitem
    obtain ⟨a, _, rfl⟩ := hitem
    unfold batch_item_result
    split
    · rfl
    · rfl

/-- C10 witness: the theorem applied to concrete calls — one successful search
with one job, and a concrete batch. -/
theorem C10_counts_witness :
    search_jobs cfg0 scOk
      ⟨some "Bäcker", some "Berlin", none, none, none, none, none, none, none, none⟩ =
      .ok ⟨some 42, some 1, some 25, 1, [normalizeJob listing0], 0⟩
    ∧ (1 = [normalizeJob listing0].length)
    ∧ batch_search_jobs cfg0 scFail dcFail bparams0 = .ok batchres0
    ∧ batchres0.searches_count = batchres0.results.length
    ∧ ∀ item ∈ batchres0.results, item.jobs_count = item.jobs.length := by
  have h1 := (C10_counts cfg0 scOk dcFail
    ⟨some "Bäcker", some "Berlin", none, none, none, none, none, none, none, none⟩
    bparams0).1 _ rfl
  have h2 := (C10_counts cfg0 scFail dcFail
    ⟨some "Bäcker", some "Berlin", none, none, none, none, none, none, none, none⟩
    bparams0).2 _ rfl
  exact ⟨rfl, h1, rfl, h2.1, h2.2⟩

/-! ## Claim C8 — decode-failure error reporting -/

/-- A JSON text parser oracle that always fails with serde_json's typical
message. -/
def parse_fail_oracle : String → Except String Json :=
  fun _ => .error "expected value at line 1 column 1"

/-- A successful HTTP response carrying a body that fails structural decoding. -/
def c8resp : HttpResponse := ⟨true, "200 OK", "UNPARSEABLE_BODY_XYZ"⟩

/-- C8 counterexample: the claim states that on a success status with an
undecodable body the returned error value includes a bounded excerpt of the raw
body; but the error returned by the search call is
`"Failed to parse API response: {decode error}"`, which does not contain the
(20-character, hence fully within any few-hundred-character excerpt) body at
all — the body excerpt goes only to the warning log — and the detail call's
error contains no body text either. -/
theorem C8_counterexample :
    (client_search parse_fail_oracle c8resp).1 =
      .error "Failed to parse API response: expected value at line 1 column 1"
    ∧ strContains "Failed to parse API response: expected value at line 1 column 1"
        (take_chars c8resp.body 500) = false
    ∧ c8resp.body ≠ ""
    ∧ client_job_details parse_fail_oracle c8resp =
        .error "error decoding response body: expected value at line 1 column 1"
    ∧ strContains "error decoding response body: expected value at line 1 column 1"
        (take_chars c8resp.body 500) = false :=
  ⟨rfl, by decide, by decide, rfl, by decide⟩

/-- C8 (amended): on a success HTTP status whose body fails structural
decoding, the search call returns the terminal error
`"Failed to parse API response: {decode error}"` — without the raw body — and
emits two warning-log lines of which the second carries the first 500
characters of the raw body; the detail call returns the body-decoding error,
also without the raw body. -/
theorem C8_decode_failure_reporting
    (parseJson : String → Except String Json) (resp : HttpResponse) (e : String)
    (hs : resp.success = true)
    (hf : search_from_str parseJson resp.body = .error e) :
    client_search parseJson resp =
      (.error ("Failed to parse API response: " ++ e),
       ["Failed to parse API response: " ++ e,
        "Response body (first 500 chars): " ++ take_chars resp.body 500])
    ∧ ∀ e2, details_from_str parseJson resp.body = .error e2 →
        client_job_details parseJson resp =
          .error ("error decoding response body: " ++ e2) := by
  constructor
  · unfold client_search
    rw [hs, hf]
    rfl
  · intro e2 h2
    unfold client_job_details
    rw [hs, h2]
    rfl

/-- C8 witness: the amended theorem applied at the concrete failing response —
the returned errors and the warning log evaluate as stated. -/
theorem C8_decode_failure_reporting_witness :
    client_search parse_fail_oracle c8resp =
      (.error "Failed to parse API response: expected value at line 1 column 1",
       ["Failed to parse API response: expected value at line 1 column 1",
        "Response body (first 500 chars): UNPARSEABLE_BODY_XYZ"])
    ∧ client_job_details parse_fail_oracle c8resp =
        .error "error decoding response body: expected value at line 1 column 1" := by
  have h := C8_decode_failure_reporting parse_fail_oracle c8resp
    "expected value at line 1 column 1" rfl rfl
  exact ⟨h.1.trans rfl, (h.2 _ rfl).trans rfl⟩

end Jobsuche
